import Mathlib

/-!
Shallow embedding of `src/battery.py` (class `Battery`), a driver reading
telemetry and status registers from a smart lithium-ion battery pack over an
SMBus-style two-wire register-addressed bus.  The external `smbus` transport
is represented abstractly as a record of the three byte-level primitives the
driver consumes; errors raised by Python code are modelled with `Except`.
Each method is embedded as a function returning the Python return value (or
raised error), the list of bus transactions issued during the call, and the
object state after the call.
-/

/-- Errors a Python call in this driver can raise: an error raised by the bus
transport, a TypeError (for example calling a method with a wrong number of
arguments), or an IndexError from subscripting a too-short byte list. -/
inductive PyError where
  | busError (msg : String) : PyError
  | typeError (msg : String) : PyError
  | indexError : PyError
deriving DecidableEq

/-- A single bus transaction as issued to the transport. -/
inductive Transaction where
  | readByte (addr comm : Nat) : Transaction
  | readBlock (addr comm nBytes : Nat) : Transaction
  | writeByte (addr comm value : Nat) : Transaction
deriving DecidableEq

/-- The device address a transaction is directed at. -/
def Transaction.addr : Transaction → Nat
  | .readByte a _ => a
  | .readBlock a _ _ => a
  | .writeByte a _ _ => a

/-- The bus transport (the external `smbus.SMBus` collaborator):
`read_byte_data` returns the raw bytes of a single-register read,
`read_block_data` the raw bytes of a block read given a byte count,
`write_byte_data` performs a single-byte write.  Any of them may fail. -/
structure SMBus where
  read_byte_data : Nat → Nat → Except PyError (List Nat)
  read_block_data : Nat → Nat → Nat → Except PyError (List Nat)
  write_byte_data : Nat → Nat → Nat → Except PyError Unit

/-- The `Battery` object state: the bus handle created at construction and
the stored device address (`self.bus`, `self.busAddr`). -/
structure Battery where
  bus : SMBus
  busAddr : Nat

/-- Result of running one method of `Battery`: the Python return value or the
raised error, the list of bus transactions issued during the call, and the
object state after the call. -/
structure MethodResult (α : Type) where
  ret : Except PyError α
  txns : List Transaction
  post : Battery

/-- Python subscript `data[i]` on a list of bytes: IndexError when out of
range (the driver only uses nonnegative indices). -/
def pyIndex (data : List Nat) (i : Nat) : Except PyError Nat :=
  match data.get? i with
  | some v => Except.ok v
  | none => Except.error PyError.indexError

/-- `Battery.__init__(address, nBus)`: `self.bus = smbus.SMBus(nBus)` then
`self.busAddr = address`.  An error raised while opening the bus propagates
out of the constructor and no object is produced. -/
def Battery.init (smbusOpen : Nat → Except PyError SMBus) (address nBus : Nat) :
    Except PyError Battery :=
  match smbusOpen nBus with
  | Except.error e => Except.error e
  | Except.ok bus => Except.ok { bus := bus, busAddr := address }

/-- `Battery.WriteWord(comm, word)`:
`self.bus.write_byte_data(self.busAddr, comm, word)`; the method body has no
return statement, so on success Python returns None (here `Unit`). -/
def Battery.WriteWord (b : Battery) (comm word : Nat) : MethodResult Unit :=
  { ret := b.bus.write_byte_data b.busAddr comm word
    txns := [Transaction.writeByte b.busAddr comm word]
    post := b }

/-- `Battery.ReadWord(comm)`:
`data = self.bus.read_byte_data(self.busAddr, comm)`, `msb = data[1]`,
`lsb = data[0]`, `return ((msb << 8) | (lsb >> 4))`.  The bus transaction is
issued first, in every control path; indexing errors arise afterwards. -/
def Battery.ReadWord (b : Battery) (comm : Nat) : MethodResult Nat :=
  { ret :=
      match b.bus.read_byte_data b.busAddr comm with
      | Except.error e => Except.error e
      | Except.ok data =>
        match pyIndex data 1 with
        | Except.error e => Except.error e
        | Except.ok msb =>
          match pyIndex data 0 with
          | Except.error e => Except.error e
          | Except.ok lsb => Except.ok ((msb <<< 8) ||| (lsb >>> 4))
    txns := [Transaction.readByte b.busAddr comm]
    post := b }

/-- `Battery.BlockRead(comm, nBytes)`:
`data = self.bus.read_block_data(self.busAddr, comm, nBytes)`, `msb = data[1]`,
`lsb = data[0]`, `return ((msb << 8) | (lsb >> 4))`.  `nBytes` is forwarded to
the transport unmodified. -/
def Battery.BlockRead (b : Battery) (comm nBytes : Nat) : MethodResult Nat :=
  { ret :=
      match b.bus.read_block_data b.busAddr comm nBytes with
      | Except.error e => Except.error e
      | Except.ok data =>
        match pyIndex data 1 with
        | Except.error e => Except.error e
        | Except.ok msb =>
          match pyIndex data 0 with
          | Except.error e => Except.error e
          | Except.ok lsb => Except.ok ((msb <<< 8) ||| (lsb >>> 4))
    txns := [Transaction.readBlock b.busAddr comm nBytes]
    post := b }

/-- Message of the TypeError raised by `self.ReadWord()` when called without
its required `comm` argument (as in `self.ReadWord()(0x10)`). -/
def typeErrMsg : String := "ReadWord missing 1 required positional argument: comm"

/-- `Battery.AtRateTimeToFull()`: `return self.ReadWord(0x05)`. -/
def Battery.AtRateTimeToFull (b : Battery) : MethodResult (Option Nat) :=
  let r := b.ReadWord 0x05
  { ret := r.ret.map some, txns := r.txns, post := r.post }

/-- `Battery.AtRateTimeToEmpty()`: `return self.ReadWord(0x06)`. -/
def Battery.AtRateTimeToEmpty (b : Battery) : MethodResult (Option Nat) :=
  let r := b.ReadWord 0x06
  { ret := r.ret.map some, txns := r.txns, post := r.post }

/-- `Battery.Temperature()`: `return self.ReadWord(0x08)`. -/
def Battery.Temperature (b : Battery) : MethodResult (Option Nat) :=
  let r := b.ReadWord 0x08
  { ret := r.ret.map some, txns := r.txns, post := r.post }

/-- `Battery.Voltage()`: `return self.ReadWord(0x09)`. -/
def Battery.Voltage (b : Battery) : MethodResult (Option Nat) :=
  let r := b.ReadWord 0x09
  { ret := r.ret.map some, txns := r.txns, post := r.post }

/-- `Battery.Current()`: `return self.ReadWord(0x0a)`. -/
def Battery.Current (b : Battery) : MethodResult (Option Nat) :=
  let r := b.ReadWord 0x0a
  { ret := r.ret.map some, txns := r.txns, post := r.post }

/-- `Battery.AverageCurrent()`: `return self.ReadWord(0x0b)`. -/
def Battery.AverageCurrent (b : Battery) : MethodResult (Option Nat) :=
  let r := b.ReadWord 0x0b
  { ret := r.ret.map some, txns := r.txns, post := r.post }

/-- `Battery.MaxError()`: `return self.ReadWord(0x0c)`. -/
def Battery.MaxError (b : Battery) : MethodResult (Option Nat) :=
  let r := b.ReadWord 0x0c
  { ret := r.ret.map some, txns := r.txns, post := r.post }

/-- `Battery.RelativeStateOfCharge()`: `return self.ReadWord(0x0d)`. -/
def Battery.RelativeStateOfCharge (b : Battery) : MethodResult (Option Nat) :=
  let r := b.ReadWord 0x0d
  { ret := r.ret.map some, txns := r.txns, post := r.post }

/-- `Battery.AbsoluteStateOfCharge()`: `return self.ReadWord(0x0e)`. -/
def Battery.AbsoluteStateOfCharge (b : Battery) : MethodResult (Option Nat) :=
  let r := b.ReadWord 0x0e
  { ret := r.ret.map some, txns := r.txns, post := r.post }

/-- `Battery.RemainingCapacity()`: `return self.ReadWord(0x0f)`. -/
def Battery.RemainingCapacity (b : Battery) : MethodResult (Option Nat) :=
  let r := b.ReadWord 0x0f
  { ret := r.ret.map some, txns := r.txns, post := r.post }

/-- `Battery.FullChargeCapacity()`: `self.ReadWord()(0x10)`.  Python raises
TypeError on `self.ReadWord()` (missing argument) before any bus access, so
the call fails with no transaction issued. -/
def Battery.FullChargeCapacity (b : Battery) : MethodResult (Option Nat) :=
  { ret := Except.error (PyError.typeError typeErrMsg), txns := [], post := b }

/-- `Battery.RunTimeToEmpty()`: `self.ReadWord()(0x11)`.  Python raises
TypeError on `self.ReadWord()` before any bus access. -/
def Battery.RunTimeToEmpty (b : Battery) : MethodResult (Option Nat) :=
  { ret := Except.error (PyError.typeError typeErrMsg), txns := [], post := b }

/-- `Battery.AverageTimeToEmpty()`: `self.ReadWord(0x12)` with no return
statement: the read is performed, its result is discarded, and on success
Python returns None. -/
def Battery.AverageTimeToEmpty (b : Battery) : MethodResult (Option Nat) :=
  let r := b.ReadWord 0x12
  { ret := r.ret.map (fun _ => none), txns := r.txns, post := r.post }

/-- `Battery.AverageTimeToFull()`: `self.ReadWord()(0x13)`.  Python raises
TypeError on `self.ReadWord()` before any bus access. -/
def Battery.AverageTimeToFull (b : Battery) : MethodResult (Option Nat) :=
  { ret := Except.error (PyError.typeError typeErrMsg), txns := [], post := b }

/-- `Battery.ChargingCurrent()`: `self.ReadWord(0x14)` with no return. -/
def Battery.ChargingCurrent (b : Battery) : MethodResult (Option Nat) :=
  let r := b.ReadWord 0x14
  { ret := r.ret.map (fun _ => none), txns := r.txns, post := r.post }

/-- `Battery.ChargingVoltage()`: `self.ReadWord(0x15)` with no return. -/
def Battery.ChargingVoltage (b : Battery) : MethodResult (Option Nat) :=
  let r := b.ReadWord 0x15
  { ret := r.ret.map (fun _ => none), txns := r.txns, post := r.post }

/-- `Battery.BatteryStatus()`: `self.ReadWord(0x16)` with no return. -/
def Battery.BatteryStatus (b : Battery) : MethodResult (Option Nat) :=
  let r := b.ReadWord 0x16
  { ret := r.ret.map (fun _ => none), txns := r.txns, post := r.post }

/-- `Battery.CycleCount()`: `self.ReadWord(0x17)` with no return. -/
def Battery.CycleCount (b : Battery) : MethodResult (Option Nat) :=
  let r := b.ReadWord 0x17
  { ret := r.ret.map (fun _ => none), txns := r.txns, post := r.post }

/-- `Battery.DesignCapacity()`: `self.ReadWord(0x18)` with no return. -/
def Battery.DesignCapacity (b : Battery) : MethodResult (Option Nat) :=
  let r := b.ReadWord 0x18
  { ret := r.ret.map (fun _ => none), txns := r.txns, post := r.post }

/-- `Battery.DesignVoltage()`: `self.ReadWord(0x19)` with no return. -/
def Battery.DesignVoltage (b : Battery) : MethodResult (Option Nat) :=
  let r := b.ReadWord 0x19
  { ret := r.ret.map (fun _ => none), txns := r.txns, post := r.post }

/-- `Battery.SerialNumber()`: `self.ReadWord(0x1c)` with no return. -/
def Battery.SerialNumber (b : Battery) : MethodResult (Option Nat) :=
  let r := b.ReadWord 0x1c
  { ret := r.ret.map (fun _ => none), txns := r.txns, post := r.post }

/-- The register accessor catalog: one constructor per named accessor of the
`Battery` class. -/
inductive Accessor where
  | atRateTimeToFull | atRateTimeToEmpty | temperature | voltage | current
  | averageCurrent | maxError | relativeStateOfCharge | absoluteStateOfCharge
  | remainingCapacity | fullChargeCapacity | runTimeToEmpty
  | averageTimeToEmpty | averageTimeToFull | chargingCurrent | chargingVoltage
  | batteryStatus | cycleCount | designCapacity | designVoltage | serialNumber
deriving DecidableEq

/-- Run the named accessor method on a battery object. -/
def Accessor.run : Accessor → Battery → MethodResult (Option Nat)
  | .atRateTimeToFull, b => b.AtRateTimeToFull
  | .atRateTimeToEmpty, b => b.AtRateTimeToEmpty
  | .temperature, b => b.Temperature
  | .voltage, b => b.Voltage
  | .current, b => b.Current
  | .averageCurrent, b => b.AverageCurrent
  | .maxError, b => b.MaxError
  | .relativeStateOfCharge, b => b.RelativeStateOfCharge
  | .absoluteStateOfCharge, b => b.AbsoluteStateOfCharge
  | .remainingCapacity, b => b.RemainingCapacity
  | .fullChargeCapacity, b => b.FullChargeCapacity
  | .runTimeToEmpty, b => b.RunTimeToEmpty
  | .averageTimeToEmpty, b => b.AverageTimeToEmpty
  | .averageTimeToFull, b => b.AverageTimeToFull
  | .chargingCurrent, b => b.ChargingCurrent
  | .chargingVoltage, b => b.ChargingVoltage
  | .batteryStatus, b => b.BatteryStatus
  | .cycleCount, b => b.CycleCount
  | .designCapacity, b => b.DesignCapacity
  | .designVoltage, b => b.DesignVoltage
  | .serialNumber, b => b.SerialNumber

/-- The documented one-byte command code of each accessor (the code appearing
in its body in the source). -/
def Accessor.code : Accessor → Nat
  | .atRateTimeToFull => 0x05
  | .atRateTimeToEmpty => 0x06
  | .temperature => 0x08
  | .voltage => 0x09
  | .current => 0x0a
  | .averageCurrent => 0x0b
  | .maxError => 0x0c
  | .relativeStateOfCharge => 0x0d
  | .absoluteStateOfCharge => 0x0e
  | .remainingCapacity => 0x0f
  | .fullChargeCapacity => 0x10
  | .runTimeToEmpty => 0x11
  | .averageTimeToEmpty => 0x12
  | .averageTimeToFull => 0x13
  | .chargingCurrent => 0x14
  | .chargingVoltage => 0x15
  | .batteryStatus => 0x16
  | .cycleCount => 0x17
  | .designCapacity => 0x18
  | .designVoltage => 0x19
  | .serialNumber => 0x1c

/-- The accessors whose body is the malformed call `self.ReadWord()(code)`
(FullChargeCapacity, RunTimeToEmpty, AverageTimeToFull): these raise a
TypeError before reaching the bus. -/
def Accessor.defective : Accessor → Bool
  | .fullChargeCapacity => true
  | .runTimeToEmpty => true
  | .averageTimeToFull => true
  | _ => false

/-- A transport whose reads always return the fixed byte list `bytes` and
whose writes always succeed. -/
def constBus (bytes : List Nat) : SMBus :=
  { read_byte_data := fun _ _ => Except.ok bytes
    read_block_data := fun _ _ _ => Except.ok bytes
    write_byte_data := fun _ _ _ => Except.ok () }

/-- A transport all of whose transactions fail with the error `e`. -/
def failBus (e : PyError) : SMBus :=
  { read_byte_data := fun _ _ => Except.error e
    read_block_data := fun _ _ _ => Except.error e
    write_byte_data := fun _ _ _ => Except.error e }

/-- A battery at address 0x0B whose transport returns bytes `[0xF0, 0x01]`. -/
def testBattery : Battery := { bus := constBus [0xF0, 0x01], busAddr := 0x0B }

/-- A battery at address 0x0B whose transport returns a four-byte block. -/
def blockBattery : Battery :=
  { bus := constBus [0xF0, 0x01, 0x55, 0x66], busAddr := 0x0B }

/-- A battery at address 0x0B whose transport fails every transaction. -/
def nackBattery : Battery :=
  { bus := failBus (PyError.busError "NACK"), busAddr := 0x0B }

/-- A bus opener that succeeds only for bus number 1. -/
def demoOpen : Nat → Except PyError SMBus := fun nBus =>
  if nBus = 1 then Except.ok (constBus [0xF0, 0x01])
  else Except.error (PyError.busError "no bus")

/-- C1: for every pair of raw bytes (lsb, msb) returned by the transport for
a single-register read, ReadWord returns exactly (msb <<< 8) ||| (lsb >>> 4). -/
theorem ReadWord_decodes_pair (b : Battery) (comm lsb msb : Nat)
    (h : b.bus.read_byte_data b.busAddr comm = Except.ok [lsb, msb]) :
    (b.ReadWord comm).ret = Except.ok ((msb <<< 8) ||| (lsb >>> 4)) := by
  simp [Battery.ReadWord, h, pyIndex]

/-- C1 witness: for lsb = 0xF0 and msb = 0x01 the decoded word is 0x10F. -/
theorem ReadWord_decodes_pair_witness :
    (testBattery.ReadWord 0x08).ret = Except.ok 0x10F :=
  ReadWord_decodes_pair testBattery 0x08 0xF0 0x01 rfl

/-- C2: counter-evidence for the claim that every cataloged accessor issues
exactly one transaction with its documented command code.  FullChargeCapacity
(documented code 0x10) raises a TypeError on `self.ReadWord()` before any bus
access and issues no transaction at all; RunTimeToEmpty (0x11) and
AverageTimeToFull (0x13) behave the same way. -/
theorem defective_accessors_issue_no_transaction (b : Battery) :
    (b.FullChargeCapacity).txns = [] ∧
    (b.FullChargeCapacity).ret = Except.error (PyError.typeError typeErrMsg) ∧
    (b.RunTimeToEmpty).txns = [] ∧
    (b.AverageTimeToFull).txns = [] :=
  ⟨rfl, rfl, rfl, rfl⟩

/-- C3: counter-evidence for the claim that every accessor returns the
decoded word on a successful read.  With a transport returning bytes
`[0xF0, 0x01]`, AverageTimeToEmpty issues its read (command 0x12) and then
returns None instead of the decoded value 0x10F; the same discard happens in
the accessors with codes 0x14 through 0x1c. -/
theorem AverageTimeToEmpty_drops_result :
    (testBattery.AverageTimeToEmpty).txns = [Transaction.readByte 0x0B 0x12] ∧
    (testBattery.AverageTimeToEmpty).ret = Except.ok none ∧
    (testBattery.SerialNumber).ret = Except.ok none :=
  ⟨rfl, rfl, rfl⟩

/-- C4: for every block of at least two bytes returned by the transport,
BlockRead returns the value ReadWord would compute from the bytes at indices
0 and 1 of that block; the bytes past index 1 (and those past index 1 of the
word read) never affect the result. -/
theorem BlockRead_decodes_first_two (b b2 : Battery)
    (comm n comm2 lsb msb : Nat) (rest rest2 : List Nat)
    (hblock : b.bus.read_block_data b.busAddr comm n =
      Except.ok (lsb :: msb :: rest))
    (hbyte : b2.bus.read_byte_data b2.busAddr comm2 =
      Except.ok (lsb :: msb :: rest2)) :
    (b.BlockRead comm n).ret = (b2.ReadWord comm2).ret := by
  simp [Battery.BlockRead, Battery.ReadWord, hblock, hbyte, pyIndex]

/-- C4 witness: a four-byte block `[0xF0, 0x01, 0x55, 0x66]` decodes to the
same value as a two-byte word read of `[0xF0, 0x01]`. -/
theorem BlockRead_decodes_first_two_witness :
    (blockBattery.BlockRead 0x20 4).ret = (testBattery.ReadWord 0x09).ret :=
  BlockRead_decodes_first_two blockBattery testBattery 0x20 4 0x09 0xF0 0x01
    [0x55, 0x66] [] rfl rfl

/-- C5 counterexample: a request with maxBytes = 40 is neither rejected with
an argument-range error nor clamped: the transaction handed to the transport
carries length 40 and the call completes normally. -/
theorem BlockRead_no_bound_counterexample :
    (testBattery.BlockRead 0x20 40).txns =
      [Transaction.readBlock 0x0B 0x20 40] ∧
    (testBattery.BlockRead 0x20 40).ret = Except.ok 0x10F :=
  ⟨rfl, rfl⟩

/-- C5 amended: BlockRead imposes no bound of its own: the requested byte
count is forwarded to the transport unmodified, whatever its size. -/
theorem BlockRead_passes_length_through (b : Battery) (comm n : Nat) :
    (b.BlockRead comm n).txns = [Transaction.readBlock b.busAddr comm n] :=
  rfl

/-- C6 counterexample: with a transport whose reads succeed, ChargingCurrent
completes successfully yet carries no decoded value (Python returns None), so
a call is not always either a full success with a decoded value or a full
failure. -/
theorem ChargingCurrent_succeeds_without_value :
    (testBattery.ChargingCurrent).ret = Except.ok none ∧
    (testBattery.ChargingCurrent).txns = [Transaction.readByte 0x0B 0x14] :=
  ⟨rfl, rfl⟩

/-- C6 amended: no error is ever caught or ignored.  ReadWord and BlockRead
fail with exactly the transport error; every accessor whose read fails either
fails with that same error or (for the three defective accessors) fails with
the TypeError raised before the bus is reached — but a defective-free success
need not carry a decoded value. -/
theorem errors_propagate_unhandled :
    (∀ (b : Battery) (comm : Nat) (e : PyError),
        b.bus.read_byte_data b.busAddr comm = Except.error e →
        (b.ReadWord comm).ret = Except.error e) ∧
    (∀ (b : Battery) (comm n : Nat) (e : PyError),
        b.bus.read_block_data b.busAddr comm n = Except.error e →
        (b.BlockRead comm n).ret = Except.error e) ∧
    (∀ (a : Accessor) (b : Battery) (e : PyError),
        (∀ comm, b.bus.read_byte_data b.busAddr comm = Except.error e) →
        (a.run b).ret = Except.error e ∨
        (a.run b).ret = Except.error (PyError.typeError typeErrMsg)) := by
  refine ⟨?_, ?_, ?_⟩
  · intro b comm e h
    simp [Battery.ReadWord, h]
  · intro b comm n e h
    simp [Battery.BlockRead, h]
  · intro a b e h
    cases a <;>
      simp [Accessor.run, Battery.AtRateTimeToFull, Battery.AtRateTimeToEmpty,
        Battery.Temperature, Battery.Voltage, Battery.Current,
        Battery.AverageCurrent, Battery.MaxError,
        Battery.RelativeStateOfCharge, Battery.AbsoluteStateOfCharge,
        Battery.RemainingCapacity, Battery.FullChargeCapacity,
        Battery.RunTimeToEmpty, Battery.AverageTimeToEmpty,
        Battery.AverageTimeToFull, Battery.ChargingCurrent,
        Battery.ChargingVoltage, Battery.BatteryStatus, Battery.CycleCount,
        Battery.DesignCapacity, Battery.DesignVoltage, Battery.SerialNumber,
        Battery.ReadWord, Except.map, h]

/-- C6 amended witness: a transport failing with a NACK error makes ReadWord,
BlockRead and the Temperature accessor fail with that same error. -/
theorem errors_propagate_unhandled_witness :
    (nackBattery.ReadWord 0x08).ret = Except.error (PyError.busError "NACK") ∧
    (nackBattery.BlockRead 0x20 4).ret =
      Except.error (PyError.busError "NACK") ∧
    ((Accessor.temperature.run nackBattery).ret =
        Except.error (PyError.busError "NACK") ∨
      (Accessor.temperature.run nackBattery).ret =
        Except.error (PyError.typeError typeErrMsg)) :=
  ⟨errors_propagate_unhandled.1 nackBattery 0x08 (PyError.busError "NACK") rfl,
   errors_propagate_unhandled.2.1 nackBattery 0x20 4
     (PyError.busError "NACK") rfl,
   errors_propagate_unhandled.2.2 Accessor.temperature nackBattery
     (PyError.busError "NACK") (fun _ => rfl)⟩

/-- C7: if the bus cannot be opened, construction fails with that error and
produces no object; on success the constructor stores the given address in
`busAddr` and every transaction any subsequent operation issues is directed
at that address. -/
theorem init_spec (smbusOpen : Nat → Except PyError SMBus)
    (address nBus : Nat) :
    (∀ e, smbusOpen nBus = Except.error e →
        Battery.init smbusOpen address nBus = Except.error e) ∧
    (∀ b : Battery, Battery.init smbusOpen address nBus = Except.ok b →
        b.busAddr = address ∧
        (∀ comm, ∀ t ∈ (b.ReadWord comm).txns, t.addr = address) ∧
        (∀ comm n, ∀ t ∈ (b.BlockRead comm n).txns, t.addr = address) ∧
        (∀ comm w, ∀ t ∈ (b.WriteWord comm w).txns, t.addr = address) ∧
        (∀ a : Accessor, ∀ t ∈ (a.run b).txns, t.addr = address)) := by
  constructor
  · intro e he
    simp [Battery.init, he]
  · intro b hb
    have hA : b.busAddr = address := by
      unfold Battery.init at hb
      cases ho : smbusOpen nBus with
      | error e => rw [ho] at hb; cases hb
      | ok bus =>
        rw [ho] at hb
        injection hb with hb2
        subst hb2
        rfl
    refine ⟨hA, ?_, ?_, ?_, ?_⟩
    · intro comm t ht
      simp [Battery.ReadWord] at ht
      simp [ht, Transaction.addr, hA]
    · intro comm n t ht
      simp [Battery.BlockRead] at ht
      simp [ht, Transaction.addr, hA]
    · intro comm w t ht
      simp [Battery.WriteWord] at ht
      simp [ht, Transaction.addr, hA]
    · intro a t ht
      cases a <;>
        simp [Accessor.run, Battery.AtRateTimeToFull,
          Battery.AtRateTimeToEmpty, Battery.Temperature, Battery.Voltage,
          Battery.Current, Battery.AverageCurrent, Battery.MaxError,
          Battery.RelativeStateOfCharge, Battery.AbsoluteStateOfCharge,
          Battery.RemainingCapacity, Battery.FullChargeCapacity,
          Battery.RunTimeToEmpty, Battery.AverageTimeToEmpty,
          Battery.AverageTimeToFull, Battery.ChargingCurrent,
          Battery.ChargingVoltage, Battery.BatteryStatus, Battery.CycleCount,
          Battery.DesignCapacity, Battery.DesignVoltage,
          Battery.SerialNumber, Battery.ReadWord] at ht <;>
        simp [ht, Transaction.addr, hA]

/-- C7 witness: with an opener reachable only at bus 1, construction on bus 2
fails with the open error, while a client built on bus 1 stores address 0x0B
and its Temperature read targets that address. -/
theorem init_spec_witness :
    Battery.init demoOpen 0x0B 2 = Except.error (PyError.busError "no bus") ∧
    testBattery.busAddr = 0x0B ∧
    (Transaction.readByte 0x0B 0x08).addr = 0x0B := by
  refine ⟨(init_spec demoOpen 0x0B 2).1 (PyError.busError "no bus") rfl,
    ((init_spec demoOpen 0x0B 1).2 testBattery rfl).1, ?_⟩
  exact ((init_spec demoOpen 0x0B 1).2 testBattery rfl).2.1 0x08
    (Transaction.readByte 0x0B 0x08) (by simp [Battery.ReadWord, testBattery])

/-- C8 counterexample: a FullChargeCapacity call issues no bus transaction at
all, so not every accessor call is a single bus transaction. -/
theorem fullChargeCapacity_zero_transactions :
    (Accessor.fullChargeCapacity.run testBattery).txns.length = 0 := rfl

/-- C8 amended: no operation mutates the object (the post state equals the
input state, so no state is retained between calls); ReadWord, BlockRead and
WriteWord each issue exactly one transaction carrying the stored address;
every accessor issues at most one transaction — exactly one carrying its
command code and the stored address, except the three defective accessors,
which fail before reaching the bus and issue none. -/
theorem handle_immutable_frame (a : Accessor) (b : Battery) (comm n w : Nat) :
    (b.ReadWord comm).post = b ∧
    (b.BlockRead comm n).post = b ∧
    (b.WriteWord comm w).post = b ∧
    (a.run b).post = b ∧
    (b.ReadWord comm).txns = [Transaction.readByte b.busAddr comm] ∧
    (b.BlockRead comm n).txns = [Transaction.readBlock b.busAddr comm n] ∧
    (b.WriteWord comm w).txns = [Transaction.writeByte b.busAddr comm w] ∧
    (a.run b).txns =
      (if a.defective then [] else [Transaction.readByte b.busAddr a.code]) := by
  cases a <;> exact ⟨rfl, rfl, rfl, rfl, rfl, rfl, rfl, rfl⟩

/-- C9: WriteWord issues exactly one single-byte write transaction to the
stored device address with register selector `comm` and payload `word`,
returns no value beyond the transport outcome (None on success), performs no
read, and leaves the object unchanged. -/
theorem WriteWord_spec (b : Battery) (comm word : Nat) :
    (b.WriteWord comm word).txns =
      [Transaction.writeByte b.busAddr comm word] ∧
    (b.WriteWord comm word).ret = b.bus.write_byte_data b.busAddr comm word ∧
    (b.WriteWord comm word).post = b :=
  ⟨rfl, rfl, rfl⟩

/-- Decoding identity: for a low byte at most 255, the asymmetric
shift-and-or assembly equals 256 times the high byte plus the low byte
divided by 16. -/
theorem decode_eq (lsb msb : Nat) (h : lsb ≤ 255) :
    (msb <<< 8) ||| (lsb >>> 4) = 256 * msb + lsb / 16 := by
  have h4 : lsb >>> 4 = lsb / 16 := by
    rw [Nat.shiftRight_eq_div_pow]
  have h8 : msb <<< 8 = 2 ^ 8 * msb := by
    rw [Nat.shiftLeft_eq, Nat.mul_comm]
  have hlt : lsb / 16 < 2 ^ 8 := by
    have h2 : (2 : Nat) ^ 8 = 256 := by norm_num
    rw [h2]
    omega
  rw [h4, h8, ← Nat.mul_add_lt_is_or hlt msb]

/-- C10: every word decoded by ReadWord or BlockRead from transport bytes in
[0, 255] is at most 0xFF0F (so it fits in 16 bits) and has bits 4 through 7
equal to zero: its second-lowest nibble is always 0. -/
theorem decoded_word_bounds :
    (∀ (b : Battery) (comm lsb msb : Nat) (rest : List Nat) (v : Nat),
        lsb ≤ 255 → msb ≤ 255 →
        b.bus.read_byte_data b.busAddr comm =
          Except.ok (lsb :: msb :: rest) →
        (b.ReadWord comm).ret = Except.ok v →
        v ≤ 0xFF0F ∧ v / 16 % 16 = 0) ∧
    (∀ (b : Battery) (comm n lsb msb : Nat) (rest : List Nat) (v : Nat),
        lsb ≤ 255 → msb ≤ 255 →
        b.bus.read_block_data b.busAddr comm n =
          Except.ok (lsb :: msb :: rest) →
        (b.BlockRead comm n).ret = Except.ok v →
        v ≤ 0xFF0F ∧ v / 16 % 16 = 0) := by
  constructor
  · intro b comm lsb msb rest v hl hm h hv
    simp [Battery.ReadWord, h, pyIndex] at hv
    rw [decode_eq lsb msb hl] at hv
    omega
  · intro b comm n lsb msb rest v hl hm h hv
    simp [Battery.BlockRead, h, pyIndex] at hv
    rw [decode_eq lsb msb hl] at hv
    omega

/-- C10 witness: the word decoded from lsb = 0xF0 and msb = 0x01 is 0x10F,
which is at most 0xFF0F and has a zero second-lowest nibble. -/
theorem decoded_word_bounds_witness :
    0x10F ≤ 0xFF0F ∧ 0x10F / 16 % 16 = 0 :=
  decoded_word_bounds.1 testBattery 0x08 0xF0 0x01 [] 0x10F (by decide)
    (by decide) rfl rfl
